import Mathlib

/-!
Shallow embedding of the protprop descriptor pipeline
(src/metrics/metrics.py): the two reference tables, the residue and
structure data model, the descriptor derivations (sequence, composition,
charge, SASA aggregation, dipole and hydrophobic vectors and moments),
the burial test, the pipeline entry point with its attribute-assignment
order, the serialization record, and the builder's standard-residue
filter.

Modelling conventions: Python floats are modelled as exact rationals
(moment norms live in the reals); Python dictionaries keyed by residue
letter become functions into Option, a None result standing for a
KeyError; an attribute that may be unset (sasa, monosasa, and the
descriptor attributes assigned by measure) is an Option, a None standing
for an AttributeError on access; code that can raise returns an Except
value carrying the raised error.  External collaborators (the Bio.PDB
loader geometry, the ShrakeRupley SASA algorithm, molecular weight from
ProteinAnalysis) enter as already-computed data: a residue's
center_of_mass is a stored field, its sasa field holds the value the
external SASA pass assigned (None when that pass has not run), and the
molecular-weight utility is a function parameter of measure.
-/

/-- Reference SASA table (GLYXGLY_ASA in the source), from Miller, Janin
et al (1987), keyed by one-letter code; a missing key is a KeyError,
modelled as none. -/
def GLYXGLY_ASA : String → Option ℚ
  | "A" => some 113
  | "R" => some 241
  | "N" => some 158
  | "D" => some 151
  | "C" => some 140
  | "Q" => some 189
  | "E" => some 183
  | "G" => some 85
  | "H" => some 194
  | "I" => some 182
  | "L" => some 180
  | "K" => some 211
  | "M" => some 204
  | "F" => some 218
  | "P" => some 143
  | "S" => some 122
  | "T" => some 146
  | "W" => some 259
  | "Y" => some 229
  | "V" => some 160
  | _ => none

/-- Hydrophobicity scale (hydrophobicityscale in the source), from Guy
(1985), keyed by one-letter code. -/
def hydrophobicityscale : String → Option ℚ
  | "A" => some 0.100
  | "R" => some 1.910
  | "N" => some 0.480
  | "D" => some 0.780
  | "C" => some (-1.420)
  | "Q" => some 0.950
  | "E" => some 0.830
  | "G" => some 0.330
  | "H" => some (-0.500)
  | "I" => some (-1.130)
  | "L" => some (-1.180)
  | "K" => some 1.400
  | "M" => some (-1.590)
  | "F" => some (-2.120)
  | "P" => some 0.730
  | "S" => some 0.520
  | "T" => some 0.070
  | "W" => some (-0.510)
  | "Y" => some (-0.210)
  | "V" => some (-1.270)
  | _ => none

/-- The 20 standard one-letter codes, as one-character strings. -/
def STDLETTERS : List String :=
  ["A", "R", "N", "D", "C", "Q", "E", "G", "H", "I",
   "L", "K", "M", "F", "P", "S", "T", "W", "Y", "V"]

/-- The 20 standard one-letter codes, as characters. -/
def STDCHARS : String := "ARNDCQEGHILKMFPSTWYV"

/-- A 3D point or vector (numpy arrays of length 3 in the source). -/
abbrev Vec3 := ℚ × ℚ × ℚ

/-- Does the first character list occur as a leading segment of the
second?  Helper for the Python substring test. -/
def listStarts : List Char → List Char → Bool
  | [], _ => true
  | _ :: _, [] => false
  | a :: as, b :: bs => a == b && listStarts as bs

/-- Does the first character list occur contiguously anywhere inside the
second? -/
def listSub : List Char → List Char → Bool
  | pat, [] => listStarts pat []
  | pat, b :: bs => listStarts pat (b :: bs) || listSub pat bs

/-- Python's string membership test (sub in big): substring containment.
Note that the empty string is a substring of every string. -/
def pyIn (sub big : String) : Bool := listSub sub.data big.data

/-- Residue model (class ModRes).  resletter is set at construction from
the residue name; sasa holds the value assigned by the external
ShrakeRupley pass (none before that pass); monosasa is the copy made by
calculate_sasa (none before it runs); com is the residue
center_of_mass, computed by the external loader from atom data. -/
structure ModRes where
  rid : String × Int × String
  resname : String
  segid : String
  resletter : String
  com : Vec3
  sasa : Option ℚ
  monosasa : Option ℚ
deriving DecidableEq

/-- A chain: an ordered list of residues. -/
structure Chain where
  residues : List ModRes
deriving DecidableEq

/-- Structure model (class ModStructure): ordered chains plus the
structure-level center_of_mass computed by the external loader. -/
structure ModStructure where
  sid : String
  chains : List Chain
  com : Vec3
deriving DecidableEq

/-- Traversal order of get_residues: chains in order, then residues
within each chain. -/
def ModStructure.get_residues (s : ModStructure) : List ModRes :=
  s.chains.foldr (fun c acc => c.residues ++ acc) []

/-- ModStructure.sequencer: concatenate every residue's resletter in
traversal order (sequence += residue.resletter). -/
def seqList (rs : List ModRes) : String :=
  rs.foldl (fun acc r => acc ++ r.resletter) ""

/-- Sequencer at the structure level. -/
def sequencer (s : ModStructure) : String := seqList s.get_residues

/-- ModStructure.getlength: len of the stored sequence attribute. -/
def getlength (sequence : String) : ℕ := sequence.length

/-- Python str.count for a single-character needle. -/
def strCount (s : String) (c : Char) : ℕ := s.data.count c

/-- ModStructure.aminocount: amounts of positive (K, R), negative (D, E)
and hydrophobic (F, L, I, V) residues, counted over the sequence. -/
def aminocount (sequence : String) : ℕ × ℕ × ℕ :=
  (strCount sequence 'K' + strCount sequence 'R',
   strCount sequence 'D' + strCount sequence 'E',
   ("FLIV".data.map (fun c => strCount sequence c)).sum)

/-- ModStructure.netcharge: positive count minus negative count (Python
int subtraction, so the result may be negative). -/
def netcharge (sequence : String) : ℤ :=
  ((aminocount sequence).1 : ℤ) - ((aminocount sequence).2.1 : ℤ)

/-- ModStructure.netchargedensity: netcharge() divided by the stored
sasa attribute; Python raises ZeroDivisionError when the divisor is 0. -/
def netchargedensity (sequence : String) (sasaAttr : ℚ) : Except String ℚ :=
  if sasaAttr = 0 then .error "ZeroDivisionError"
  else .ok ((netcharge sequence : ℚ) / sasaAttr)

/-- One iteration of the truehydrophobicity loop: read residue.sasa
(AttributeError when unset), look up GLYXGLY_ASA (KeyError when the
letter is not a key), and when the ratio exceeds 0.25 add the
hydrophobicity scale value (KeyError possible there too). -/
def trueHydroStep (acc : ℚ) (r : ModRes) : Except String ℚ :=
  match r.sasa with
  | none => .error "AttributeError: sasa"
  | some v =>
    match GLYXGLY_ASA r.resletter with
    | none => .error "KeyError: GLYXGLY_ASA"
    | some ref =>
      if v / ref > 0.25 then
        match hydrophobicityscale r.resletter with
        | none => .error "KeyError: hydrophobicityscale"
        | some h => .ok (acc + h)
      else .ok acc

/-- The truehydrophobicity accumulation loop over a residue list. -/
def trueHydroGo (acc : ℚ) : List ModRes → Except String ℚ
  | [] => .ok acc
  | r :: rs =>
    match trueHydroStep acc r with
    | .error e => .error e
    | .ok acc' => trueHydroGo acc' rs

/-- ModStructure.truehydrophobicity: total scale value of the residues
more than 25 percent exposed. -/
def truehydrophobicity (s : ModStructure) : Except String ℚ :=
  trueHydroGo 0 s.get_residues

/-- The residue's sasa value once assigned (statement helper). -/
def sasaOf (r : ModRes) : ℚ := r.sasa.getD 0

/-- The residue's reference SASA once the letter is standard (statement
helper). -/
def refOf (r : ModRes) : ℚ := (GLYXGLY_ASA r.resletter).getD 0

/-- The residue's hydrophobicity scale value once the letter is standard
(statement helper). -/
def scaleOf (r : ModRes) : ℚ := (hydrophobicityscale r.resletter).getD 0

/-- Exposure test of truehydrophobicity: assigned SASA over reference
SASA strictly greater than 0.25. -/
def exposedB (r : ModRes) : Bool := decide (sasaOf r / refOf r > 0.25)

/-- Squared Euclidean length of a 3-vector (statement helper for the
numpy norm). -/
def normSq (v : Vec3) : ℚ := v.1 * v.1 + v.2.1 * v.2.1 + v.2.2 * v.2.2

/-- Euclidean norm (np.linalg.norm on a length-3 array). -/
noncomputable def norm3 (v : Vec3) : ℝ := Real.sqrt ((normSq v : ℚ) : ℝ)

/-- ModStructure.dipolevector: sum of center_of_mass over residues whose
resletter is a Python substring member of the string KR, minus the same
sum for DE.  The sums start from Python's integer 0, i.e. the zero
vector when no residue qualifies. -/
def dipolevector (s : ModStructure) : Vec3 :=
  ((s.get_residues.filter (fun r => pyIn r.resletter "KR")).map ModRes.com).sum
    - ((s.get_residues.filter (fun r => pyIn r.resletter "DE")).map ModRes.com).sum

/-- ModStructure.dipolemoment: 4.803 times the Euclidean norm of the
dipole vector. -/
noncomputable def dipolemoment (s : ModStructure) : ℝ :=
  (4.803 : ℝ) * norm3 (dipolevector s)

/-- One iteration of the hydrophobicvector loop: look up the scale
(KeyError possible), read residue.sasa (AttributeError when unset), and
add scale times sasa times the offset of the residue center_of_mass from
the structure center_of_mass. -/
def hydroVecStep (scom : Vec3) (acc : Vec3) (r : ModRes) : Except String Vec3 :=
  match hydrophobicityscale r.resletter with
  | none => .error "KeyError: hydrophobicityscale"
  | some h =>
    match r.sasa with
    | none => .error "AttributeError: sasa"
    | some v => .ok (acc + (h * v) • (r.com - scom))

/-- The hydrophobicvector accumulation loop over a residue list. -/
def hydroVecGo (scom : Vec3) (acc : Vec3) : List ModRes → Except String Vec3
  | [] => .ok acc
  | r :: rs =>
    match hydroVecStep scom acc r with
    | .error e => .error e
    | .ok acc' => hydroVecGo scom acc' rs

/-- ModStructure.hydrophobicvector: scale-and-exposure-weighted sum of
residue offsets from the structure center of mass, over all residues
with no exposure filtering. -/
def hydrophobicvector (s : ModStructure) : Except String Vec3 :=
  hydroVecGo s.com 0 s.get_residues

/-- ModStructure.hydrophobicmoment: Euclidean norm of the hydrophobic
vector. -/
noncomputable def hydrophobicmoment (s : ModStructure) : Except String ℝ :=
  (hydrophobicvector s).map norm3

/-- ModRes.is_buried: monosasa over the reference SASA at most the
threshold.  An unset monosasa raises the re-worded AttributeError; a
letter missing from the table raises a KeyError that the handler does
not catch. -/
def is_buried (r : ModRes) (threshold : ℚ) : Except String Bool :=
  match r.monosasa with
  | none => .error "Attrib. monosasa not set: call structure.calculate_sasa first"
  | some m =>
    match GLYXGLY_ASA r.resletter with
    | none => .error "KeyError: GLYXGLY_ASA"
    | some ref => .ok (decide (m / ref ≤ threshold))

/-- Per-residue body of calculate_sasa: residue.monosasa =
residue.sasa.copy(), an AttributeError when the external SASA pass has
not populated residue.sasa. -/
def copyMonoList : List ModRes → Except String (List ModRes)
  | [] => .ok []
  | r :: rs =>
    match r.sasa with
    | none => .error "AttributeError: sasa"
    | some v =>
      match copyMonoList rs with
      | .error e => .error e
      | .ok rs' => .ok ({ r with monosasa := some v } :: rs')

/-- calculate_sasa's outer loop over chains. -/
def copyMonoChains : List Chain → Except String (List Chain)
  | [] => .ok []
  | c :: cs =>
    match copyMonoList c.residues with
    | .error e => .error e
    | .ok rs =>
      match copyMonoChains cs with
      | .error e => .error e
      | .ok cs' => .ok ({ residues := rs } :: cs')

/-- ModStructure.calculate_sasa: attach monosasa to every residue (the
external ShrakeRupley computation is modelled by the pre-assigned sasa
fields), returning the updated structure and the total of the monosasa
values over all residues. -/
def calculate_sasa (s : ModStructure) : Except String (ModStructure × ℚ) :=
  match copyMonoChains s.chains with
  | .error e => .error e
  | .ok cs =>
    let s' : ModStructure := { s with chains := cs }
    .ok (s', (s'.get_residues.map (fun r => r.monosasa.getD 0)).sum)

/-- The descriptor attributes that measure assigns, each absent (none)
until its assignment statement has executed. -/
structure Measured where
  sequence : Option String
  length : Option ℕ
  MWkDa : Option ℚ
  fPos : Option ℚ
  fNeg : Option ℚ
  fFatty : Option ℚ
  sasa : Option ℚ
  nc : Option ℤ
  ncd : Option ℚ
  dpm : Option ℝ
  guy : Option ℚ
  hpm : Option ℝ

/-- ModStructure.measure: run the derivations in source order, assigning
each attribute in turn; an exception stops the method, leaving the
attributes assigned so far in place and the rest unset.  The external
molecular-weight utility (ProteinAnalysis.molecular_weight) is the
function parameter mw. -/
noncomputable def ModStructure.measure (mw : String → ℚ) (s : ModStructure) :
    Measured × Option String :=
  if getlength (sequencer s) = 0 then
    ({ sequence := some (sequencer s), length := some (getlength (sequencer s)),
       MWkDa := some (mw (sequencer s) / 1000),
       fPos := none, fNeg := none, fFatty := none, sasa := none, nc := none,
       ncd := none, dpm := none, guy := none, hpm := none },
     some "ZeroDivisionError")
  else
    match calculate_sasa s with
    | .error e =>
      ({ sequence := some (sequencer s), length := some (getlength (sequencer s)),
         MWkDa := some (mw (sequencer s) / 1000),
         fPos := some (((aminocount (sequencer s)).1 : ℚ) / (getlength (sequencer s) : ℚ)),
         fNeg := some (((aminocount (sequencer s)).2.1 : ℚ) / (getlength (sequencer s) : ℚ)),
         fFatty := some (((aminocount (sequencer s)).2.2 : ℚ) / (getlength (sequencer s) : ℚ)),
         sasa := none, nc := none, ncd := none, dpm := none, guy := none,
         hpm := none },
       some e)
    | .ok (s2, total) =>
      match netchargedensity (sequencer s) total with
      | .error e =>
        ({ sequence := some (sequencer s), length := some (getlength (sequencer s)),
           MWkDa := some (mw (sequencer s) / 1000),
           fPos := some (((aminocount (sequencer s)).1 : ℚ) / (getlength (sequencer s) : ℚ)),
           fNeg := some (((aminocount (sequencer s)).2.1 : ℚ) / (getlength (sequencer s) : ℚ)),
           fFatty := some (((aminocount (sequencer s)).2.2 : ℚ) / (getlength (sequencer s) : ℚ)),
           sasa := some total, nc := some (netcharge (sequencer s)),
           ncd := none, dpm := none, guy := none, hpm := none },
         some e)
      | .ok d =>
        match truehydrophobicity s2 with
        | .error e =>
          ({ sequence := some (sequencer s), length := some (getlength (sequencer s)),
             MWkDa := some (mw (sequencer s) / 1000),
             fPos := some (((aminocount (sequencer s)).1 : ℚ) / (getlength (sequencer s) : ℚ)),
             fNeg := some (((aminocount (sequencer s)).2.1 : ℚ) / (getlength (sequencer s) : ℚ)),
             fFatty := some (((aminocount (sequencer s)).2.2 : ℚ) / (getlength (sequencer s) : ℚ)),
             sasa := some total, nc := some (netcharge (sequencer s)),
             ncd := some d, dpm := some (dipolemoment s2), guy := none,
             hpm := none },
           some e)
        | .ok g =>
          match hydrophobicmoment s2 with
          | .error e =>
            ({ sequence := some (sequencer s), length := some (getlength (sequencer s)),
               MWkDa := some (mw (sequencer s) / 1000),
               fPos := some (((aminocount (sequencer s)).1 : ℚ) / (getlength (sequencer s) : ℚ)),
               fNeg := some (((aminocount (sequencer s)).2.1 : ℚ) / (getlength (sequencer s) : ℚ)),
               fFatty := some (((aminocount (sequencer s)).2.2 : ℚ) / (getlength (sequencer s) : ℚ)),
               sasa := some total, nc := some (netcharge (sequencer s)),
               ncd := some d, dpm := some (dipolemoment s2), guy := some g,
               hpm := none },
             some e)
          | .ok hm =>
            ({ sequence := some (sequencer s), length := some (getlength (sequencer s)),
               MWkDa := some (mw (sequencer s) / 1000),
               fPos := some (((aminocount (sequencer s)).1 : ℚ) / (getlength (sequencer s) : ℚ)),
               fNeg := some (((aminocount (sequencer s)).2.1 : ℚ) / (getlength (sequencer s) : ℚ)),
               fFatty := some (((aminocount (sequencer s)).2.2 : ℚ) / (getlength (sequencer s) : ℚ)),
               sasa := some total, nc := some (netcharge (sequencer s)),
               ncd := some d, dpm := some (dipolemoment s2), guy := some g,
               hpm := some hm },
             none)

/-- Values of the serialized record (the Python dict holds a string, an
int, and floats). -/
inductive Val where
  | str (s : String)
  | nat (n : ℕ)
  | int (z : ℤ)
  | rat (q : ℚ)
  | real (x : ℝ)

/-- Read one attribute, an AttributeError when it is unset. -/
def getAttr (msg : String) : Option α → Except String α
  | some a => .ok a
  | none => .error msg

/-- ModStructure.serializer: the flat record of the measured attributes,
with the dict's keys and insertion order; accessing an unset attribute
raises. -/
def serializer (sid : String) (st : Measured) :
    Except String (List (String × Val)) :=
  match getAttr "AttributeError: length" st.length with
  | .error e => .error e
  | .ok length =>
  match getAttr "AttributeError: MWkDa" st.MWkDa with
  | .error e => .error e
  | .ok mwkda =>
  match getAttr "AttributeError: fPos" st.fPos with
  | .error e => .error e
  | .ok fPos =>
  match getAttr "AttributeError: fNeg" st.fNeg with
  | .error e => .error e
  | .ok fNeg =>
  match getAttr "AttributeError: fFatty" st.fFatty with
  | .error e => .error e
  | .ok fFatty =>
  match getAttr "AttributeError: sasa" st.sasa with
  | .error e => .error e
  | .ok sasa =>
  match getAttr "AttributeError: nc" st.nc with
  | .error e => .error e
  | .ok nc =>
  match getAttr "AttributeError: ncd" st.ncd with
  | .error e => .error e
  | .ok ncd =>
  match getAttr "AttributeError: dpm" st.dpm with
  | .error e => .error e
  | .ok dpm =>
  match getAttr "AttributeError: guy" st.guy with
  | .error e => .error e
  | .ok guy =>
  match getAttr "AttributeError: hpm" st.hpm with
  | .error e => .error e
  | .ok hpm =>
    .ok [("id", .str sid), ("length", .nat length), ("mwkda", .rat mwkda),
         ("fPos", .rat fPos), ("fNeg", .rat fNeg), ("fFatty", .rat fFatty),
         ("sasa", .rat sasa), ("nc", .int nc), ("ncd", .rat ncd),
         ("dpm", .real dpm), ("guy", .rat guy), ("hpm", .real hpm)]

/-- Bio.PDB's standard_aa_names: the 20 standard three-letter codes. -/
def standard_aa_names : List String :=
  ["ALA", "ARG", "ASN", "ASP", "CYS", "GLN", "GLU", "GLY", "HIS", "ILE",
   "LEU", "LYS", "MET", "PHE", "PRO", "SER", "THR", "TRP", "TYR", "VAL"]

/-- Bio.PDB's three_to_one lookup, none for a name outside the table
(where the original raises). -/
def three_to_one : String → Option String
  | "ALA" => some "A"
  | "ARG" => some "R"
  | "ASN" => some "N"
  | "ASP" => some "D"
  | "CYS" => some "C"
  | "GLN" => some "Q"
  | "GLU" => some "E"
  | "GLY" => some "G"
  | "HIS" => some "H"
  | "ILE" => some "I"
  | "LEU" => some "L"
  | "LYS" => some "K"
  | "MET" => some "M"
  | "PHE" => some "F"
  | "PRO" => some "P"
  | "SER" => some "S"
  | "THR" => some "T"
  | "TRP" => some "W"
  | "TYR" => some "Y"
  | "VAL" => some "V"
  | _ => none

/-- Bio.PDB's is_aa with standard=True: membership of the (already
upper-case) residue name among the 20 standard names. -/
def is_aa_standard (resname : String) : Bool :=
  standard_aa_names.contains resname

/-- ModRes.__init__: resletter is three_to_one of the name when the name
is standard, the empty-string sentinel otherwise.  The residue's
center_of_mass comes from atom records the loader attaches afterwards,
carried here as a parameter; sasa and monosasa start unset. -/
def ModRes.init (rid : String × Int × String) (resname segid : String)
    (com : Vec3) : ModRes :=
  { rid := rid, resname := resname, segid := segid,
    resletter := if standard_aa_names.contains resname then
      (three_to_one resname).getD "" else "",
    com := com, sasa := none, monosasa := none }

/-- One call of Builder.init_residue: the chain under construction plus
the builder's segid. -/
structure BuilderState where
  segid : String
  chain : List ModRes

/-- The data of one residue record handed to Builder.init_residue; the
residue's eventual center_of_mass rides along for the model. -/
structure ResEntry where
  resname : String
  hfield : String
  resseq : Int
  icode : String
  com : Vec3

/-- Builder.init_residue: a residue whose name is not a standard amino
acid is dropped before construction; otherwise the hetero field is
adjusted and a ModRes is built and appended to the chain. -/
def init_residue (st : BuilderState) (e : ResEntry) : BuilderState :=
  if ¬ is_aa_standard e.resname then st
  else
    let f := if e.hfield ≠ " " then
        (if e.hfield = "H" then "H_" ++ e.resname else e.hfield)
      else e.hfield
    { st with chain :=
        st.chain ++ [ModRes.init (f, e.resseq, e.icode) e.resname st.segid e.com] }

/-- A chain as the Builder leaves it after a run of init_residue calls
starting from an empty chain. -/
def buildChain (segid : String) (entries : List ResEntry) : BuilderState :=
  entries.foldl init_residue { segid := segid, chain := [] }

/-- Every standard letter has an entry in both reference tables. -/
theorem std_lookup :
    ∀ l ∈ STDLETTERS, (GLYXGLY_ASA l).isSome ∧ (hydrophobicityscale l).isSome := by
  decide

/-- Closed form of the truehydrophobicity loop: with every residue's
sasa assigned and every letter standard, the loop returns the
accumulator plus the scale values of the exposed residues. -/
theorem trueHydroGo_closed (rs : List ModRes) :
    ∀ acc : ℚ, (∀ r ∈ rs, r.sasa.isSome ∧ r.resletter ∈ STDLETTERS) →
      trueHydroGo acc rs = .ok (acc + ((rs.filter exposedB).map scaleOf).sum) := by
  induction rs with
  | nil => intro acc _; simp [trueHydroGo]
  | cons r rs ih =>
    intro acc h
    obtain ⟨hs, hl⟩ := h r (List.mem_cons_self r rs)
    obtain ⟨v, hv⟩ := Option.isSome_iff_exists.mp hs
    obtain ⟨hg, hh⟩ := std_lookup r.resletter hl
    obtain ⟨ref, href⟩ := Option.isSome_iff_exists.mp hg
    obtain ⟨sc, hscale⟩ := Option.isSome_iff_exists.mp hh
    have hrest : ∀ x ∈ rs, x.sasa.isSome ∧ x.resletter ∈ STDLETTERS :=
      fun x hx => h x (List.mem_cons_of_mem r hx)
    have hsasaOf : sasaOf r = v := by simp [sasaOf, hv]
    have hrefOf : refOf r = ref := by simp [refOf, href]
    have hscaleOf : scaleOf r = sc := by simp [scaleOf, hscale]
    by_cases hc : v / ref > 0.25
    · have hexp : exposedB r = true := by
        simp only [exposedB, hsasaOf, hrefOf, decide_eq_true_eq]
        exact hc
      simp only [trueHydroGo, trueHydroStep, hv, href, hscale, if_pos hc]
      rw [ih (acc + sc) hrest, List.filter_cons, hexp]
      simp only [if_true, List.map_cons, List.sum_cons, hscaleOf]
      rw [add_assoc]
    · have hexp : exposedB r = false := by
        simp only [exposedB, hsasaOf, hrefOf, decide_eq_false_iff_not]
        exact hc
      simp only [trueHydroGo, trueHydroStep, hv, href, if_neg hc]
      rw [ih acc hrest, List.filter_cons, hexp]
      simp

/-- Decidable equality for Except values with decidable components. -/
def exceptDecEq {ε α : Type} [DecidableEq ε] [DecidableEq α] :
    DecidableEq (Except ε α) := fun a b =>
  match a, b with
  | .error x, .error y =>
    if h : x = y then .isTrue (by rw [h]) else .isFalse (by intro hh; cases hh; exact h rfl)
  | .error _, .ok _ => .isFalse (by intro hh; cases hh)
  | .ok _, .error _ => .isFalse (by intro hh; cases hh)
  | .ok x, .ok y =>
    if h : x = y then .isTrue (by rw [h]) else .isFalse (by intro hh; cases hh; exact h rfl)

instance {ε α : Type} [DecidableEq ε] [DecidableEq α] : DecidableEq (Except ε α) :=
  exceptDecEq

/-- C1: truehydrophobicity sums hydrophobicity_scale over exactly the
residues whose assigned SASA over reference SASA strictly exceeds 0.25;
residues at or below the threshold are omitted from the sum, and raising
one residue's SASA from at-or-below the threshold to above it changes
the result by exactly that residue's scale value. -/
theorem C1_truehydrophobicity (s : ModStructure) (pre post : List ModRes)
    (r : ModRes) (v v' : ℚ)
    (hres : s.get_residues = pre ++ r :: post)
    (hgood : ∀ x ∈ s.get_residues, x.sasa.isSome ∧ x.resletter ∈ STDLETTERS)
    (hv : r.sasa = some v)
    (hlow : ¬ (v / refOf r > 0.25)) (hhigh : v' / refOf r > 0.25) :
    truehydrophobicity s = .ok (((s.get_residues.filter exposedB).map scaleOf).sum)
    ∧ trueHydroGo 0 (pre ++ { r with sasa := some v' } :: post)
      = .ok ((((s.get_residues.filter exposedB).map scaleOf).sum) + scaleOf r) := by
  have hmain := trueHydroGo_closed s.get_residues 0 hgood
  rw [zero_add] at hmain
  refine ⟨hmain, ?_⟩
  set r' : ModRes := { r with sasa := some v' } with hr'
  have hrmem : r ∈ s.get_residues := by
    rw [hres]; exact List.mem_append_right _ (List.mem_cons_self _ _)
  have hgood' : ∀ x ∈ pre ++ r' :: post, x.sasa.isSome ∧ x.resletter ∈ STDLETTERS := by
    intro x hx
    rcases List.mem_append.mp hx with hx | hx
    · exact hgood x (by rw [hres]; exact List.mem_append_left _ hx)
    · rcases List.mem_cons.mp hx with hx | hx
      · subst hx
        refine ⟨by simp [hr'], ?_⟩
        simpa [hr'] using (hgood r hrmem).2
      · exact hgood x
          (by rw [hres]; exact List.mem_append_right _ (List.mem_cons_of_mem _ hx))
  have h2 := trueHydroGo_closed (pre ++ r' :: post) 0 hgood'
  rw [zero_add] at h2
  rw [h2]
  congr 1
  have hexp : exposedB r = false := by
    simp only [exposedB, sasaOf, hv, Option.getD_some, decide_eq_false_iff_not]
    exact hlow
  have hexp' : exposedB r' = true := by
    simp only [exposedB, hr', sasaOf, Option.getD_some, decide_eq_true_eq]
    exact hhigh
  rw [hres, List.filter_append, List.filter_cons, List.filter_append,
    List.filter_cons, hexp, hexp']
  simp only [if_true, Bool.false_eq_true, if_false, List.map_append,
    List.sum_append, List.map_cons, List.sum_cons]
  have hscale : scaleOf r' = scaleOf r := rfl
  rw [hscale]; ring

/-- A lysine residue with an assigned below-threshold SASA, for the C1
witness. -/
def wRes1 : ModRes :=
  { rid := (" ", 1, " "), resname := "LYS", segid := " ", resletter := "K",
    com := (1, 0, 0), sasa := some 10, monosasa := none }

/-- One-chain structure holding wRes1. -/
def wS1 : ModStructure :=
  { sid := "w1", chains := [{ residues := [wRes1] }], com := (0, 0, 0) }

/-- Witness for C1 at a concrete one-residue structure whose SASA is
raised across the threshold. -/
theorem C1_truehydrophobicity_witness :
    (wS1.get_residues = [] ++ wRes1 :: []
     ∧ (∀ x ∈ wS1.get_residues, x.sasa.isSome ∧ x.resletter ∈ STDLETTERS)
     ∧ wRes1.sasa = some 10
     ∧ ¬ ((10 : ℚ) / refOf wRes1 > 0.25) ∧ (250 : ℚ) / refOf wRes1 > 0.25)
    ∧ (truehydrophobicity wS1
         = .ok (((wS1.get_residues.filter exposedB).map scaleOf).sum)
       ∧ trueHydroGo 0 ([] ++ { wRes1 with sasa := some 250 } :: [])
         = .ok ((((wS1.get_residues.filter exposedB).map scaleOf).sum)
                 + scaleOf wRes1)) :=
  ⟨⟨by decide, by decide, by decide,
    by norm_num [refOf, wRes1, GLYXGLY_ASA],
    by norm_num [refOf, wRes1, GLYXGLY_ASA]⟩,
   C1_truehydrophobicity wS1 [] [] wRes1 10 250 (by decide) (by decide)
     (by decide) (by norm_num [refOf, wRes1, GLYXGLY_ASA])
     (by norm_num [refOf, wRes1, GLYXGLY_ASA])⟩

/-- Closed form of the hydrophobicvector loop: with every residue's sasa
assigned and every letter standard, the loop returns the accumulator
plus the scale-and-sasa-weighted offsets of all residues, with no
filtering. -/
theorem hydroVecGo_closed (scom : Vec3) (rs : List ModRes) :
    ∀ acc : Vec3, (∀ r ∈ rs, r.sasa.isSome ∧ r.resletter ∈ STDLETTERS) →
      hydroVecGo scom acc rs
        = .ok (acc + (rs.map (fun r => (scaleOf r * sasaOf r) • (r.com - scom))).sum) := by
  induction rs with
  | nil => intro acc _; simp [hydroVecGo]
  | cons r rs ih =>
    intro acc h
    obtain ⟨hs, hl⟩ := h r (List.mem_cons_self r rs)
    obtain ⟨v, hv⟩ := Option.isSome_iff_exists.mp hs
    obtain ⟨-, hh⟩ := std_lookup r.resletter hl
    obtain ⟨sc, hscale⟩ := Option.isSome_iff_exists.mp hh
    have hrest : ∀ x ∈ rs, x.sasa.isSome ∧ x.resletter ∈ STDLETTERS :=
      fun x hx => h x (List.mem_cons_of_mem r hx)
    have hsasaOf : sasaOf r = v := by simp [sasaOf, hv]
    have hscaleOf : scaleOf r = sc := by simp [scaleOf, hscale]
    simp only [hydroVecGo, hydroVecStep, hv, hscale]
    rw [ih (acc + (sc * v) • (r.com - scom)) hrest]
    simp only [List.map_cons, List.sum_cons, hscaleOf, hsasaOf]
    rw [add_assoc]

/-- C2: hydrophobicvector is the unfiltered sum over all residues of
scale times sasa times the offset of the residue center of mass from the
structure center of mass, and hydrophobicmoment is the Euclidean norm
of that vector. -/
theorem C2_hydrophobic_vector_moment (s : ModStructure)
    (h : ∀ r ∈ s.get_residues, r.sasa.isSome ∧ r.resletter ∈ STDLETTERS) :
    hydrophobicvector s
      = .ok ((s.get_residues.map
          (fun r => (scaleOf r * sasaOf r) • (r.com - s.com))).sum)
    ∧ hydrophobicmoment s
      = .ok (norm3 ((s.get_residues.map
          (fun r => (scaleOf r * sasaOf r) • (r.com - s.com))).sum)) := by
  have h1 := hydroVecGo_closed s.com s.get_residues 0 h
  rw [zero_add] at h1
  refine ⟨h1, ?_⟩
  rw [hydrophobicmoment, hydrophobicvector] at *
  rw [h1]
  rfl

/-- An alanine residue with an assigned SASA, for the C2 witness. -/
def wRes2 : ModRes :=
  { rid := (" ", 1, " "), resname := "ALA", segid := " ", resletter := "A",
    com := (2, 1, 0), sasa := some 50, monosasa := none }

/-- One-chain structure holding wRes1 and wRes2. -/
def wS2 : ModStructure :=
  { sid := "w2", chains := [{ residues := [wRes1, wRes2] }], com := (1, 1, 1) }

/-- Witness for C2 at a concrete two-residue structure. -/
theorem C2_hydrophobic_vector_moment_witness :
    (∀ r ∈ wS2.get_residues, r.sasa.isSome ∧ r.resletter ∈ STDLETTERS)
    ∧ (hydrophobicvector wS2
        = .ok ((wS2.get_residues.map
            (fun r => (scaleOf r * sasaOf r) • (r.com - wS2.com))).sum)
       ∧ hydrophobicmoment wS2
        = .ok (norm3 ((wS2.get_residues.map
            (fun r => (scaleOf r * sasaOf r) • (r.com - wS2.com))).sum))) :=
  ⟨by decide, C2_hydrophobic_vector_moment wS2 (by decide)⟩

/-- Python membership of a standard-or-empty letter in the two-letter
strings used by dipolevector: the empty string is a member of both. -/
theorem pyIn_tbl :
    ∀ l ∈ "" :: STDLETTERS,
      pyIn l "KR" = decide (l = "K" ∨ l = "R" ∨ l = "")
      ∧ pyIn l "DE" = decide (l = "D" ∨ l = "E" ∨ l = "") := by
  decide

/-- The Euclidean norm of the zero vector is zero. -/
theorem norm3_zero : norm3 0 = 0 := by
  have h : normSq 0 = 0 := by norm_num [normSq]
  rw [norm3, h]
  simp

/-- Difference of the two Python-filtered center-of-mass sums equals the
difference of the sums over the residues whose letter is exactly K or R,
resp. exactly D or E: an empty-letter residue lands in both Python
filters and cancels in the difference. -/
theorem dipole_list (rs : List ModRes)
    (h : ∀ r ∈ rs, r.resletter ∈ STDLETTERS ∨ r.resletter = "") :
    ((rs.filter (fun r => pyIn r.resletter "KR")).map ModRes.com).sum
      - ((rs.filter (fun r => pyIn r.resletter "DE")).map ModRes.com).sum
    = ((rs.filter (fun r => decide (r.resletter = "K" ∨ r.resletter = "R"))).map ModRes.com).sum
      - ((rs.filter (fun r => decide (r.resletter = "D" ∨ r.resletter = "E"))).map ModRes.com).sum := by
  induction rs with
  | nil => simp
  | cons r rs ih =>
    have hr := h r (List.mem_cons_self r rs)
    have hrest : ∀ x ∈ rs, x.resletter ∈ STDLETTERS ∨ x.resletter = "" :=
      fun x hx => h x (List.mem_cons_of_mem r hx)
    have hmem : r.resletter ∈ "" :: STDLETTERS := by
      rcases hr with h1 | h1
      · exact List.mem_cons_of_mem _ h1
      · rw [h1]; exact List.mem_cons_self _ _
    obtain ⟨hKR, hDE⟩ := pyIn_tbl r.resletter hmem
    by_cases hE : r.resletter = ""
    · have e1 : pyIn r.resletter "KR" = true := by
        rw [hKR]; exact decide_eq_true (Or.inr (Or.inr hE))
      have e2 : pyIn r.resletter "DE" = true := by
        rw [hDE]; exact decide_eq_true (Or.inr (Or.inr hE))
      have e3 : decide (r.resletter = "K" ∨ r.resletter = "R") = false := by
        rw [hE]; decide
      have e4 : decide (r.resletter = "D" ∨ r.resletter = "E") = false := by
        rw [hE]; decide
      simp only [List.filter_cons, e1, e2, e3, e4, if_true, Bool.false_eq_true,
        if_false, List.map_cons, List.sum_cons]
      calc (r.com + ((rs.filter (fun x => pyIn x.resletter "KR")).map ModRes.com).sum)
            - (r.com + ((rs.filter (fun x => pyIn x.resletter "DE")).map ModRes.com).sum)
          = ((rs.filter (fun x => pyIn x.resletter "KR")).map ModRes.com).sum
            - ((rs.filter (fun x => pyIn x.resletter "DE")).map ModRes.com).sum := by abel
        _ = _ := ih hrest
    · by_cases hK : r.resletter = "K" ∨ r.resletter = "R"
      · have e1 : pyIn r.resletter "KR" = true := by
          rw [hKR]
          rcases hK with h1 | h1
          · exact decide_eq_true (Or.inl h1)
          · exact decide_eq_true (Or.inr (Or.inl h1))
        have e2 : pyIn r.resletter "DE" = false := by
          rw [hDE]
          apply decide_eq_false
          rintro (h1 | h1 | h1)
          · rcases hK with h2 | h2 <;> rw [h2] at h1 <;> simp at h1
          · rcases hK with h2 | h2 <;> rw [h2] at h1 <;> simp at h1
          · exact hE h1
        have e3 : decide (r.resletter = "K" ∨ r.resletter = "R") = true :=
          decide_eq_true hK
        have e4 : decide (r.resletter = "D" ∨ r.resletter = "E") = false := by
          apply decide_eq_false
          rintro (h1 | h1) <;> rcases hK with h2 | h2 <;>
            rw [h2] at h1 <;> simp at h1
        simp only [List.filter_cons, e1, e2, e3, e4, if_true, Bool.false_eq_true,
          if_false, List.map_cons, List.sum_cons]
        rw [add_sub_assoc, add_sub_assoc, ih hrest]
      · by_cases hD : r.resletter = "D" ∨ r.resletter = "E"
        · have e1 : pyIn r.resletter "KR" = false := by
            rw [hKR]
            apply decide_eq_false
            rintro (h1 | h1 | h1)
            · rcases hD with h2 | h2 <;> rw [h2] at h1 <;> simp at h1
            · rcases hD with h2 | h2 <;> rw [h2] at h1 <;> simp at h1
            · exact hE h1
          have e2 : pyIn r.resletter "DE" = true := by
            rw [hDE]
            rcases hD with h1 | h1
            · exact decide_eq_true (Or.inl h1)
            · exact decide_eq_true (Or.inr (Or.inl h1))
          have e3 : decide (r.resletter = "K" ∨ r.resletter = "R") = false :=
            decide_eq_false hK
          have e4 : decide (r.resletter = "D" ∨ r.resletter = "E") = true :=
            decide_eq_true hD
          simp only [List.filter_cons, e1, e2, e3, e4, if_true, Bool.false_eq_true,
            if_false, List.map_cons, List.sum_cons]
          calc ((rs.filter (fun x => pyIn x.resletter "KR")).map ModRes.com).sum
                - (r.com + ((rs.filter (fun x => pyIn x.resletter "DE")).map ModRes.com).sum)
              = (((rs.filter (fun x => pyIn x.resletter "KR")).map ModRes.com).sum
                - ((rs.filter (fun x => pyIn x.resletter "DE")).map ModRes.com).sum)
                - r.com := by abel
            _ = (((rs.filter (fun x => decide (x.resletter = "K" ∨ x.resletter = "R"))).map ModRes.com).sum
                - ((rs.filter (fun x => decide (x.resletter = "D" ∨ x.resletter = "E"))).map ModRes.com).sum)
                - r.com := by rw [ih hrest]
            _ = _ := by abel
        · have e1 : pyIn r.resletter "KR" = false := by
            rw [hKR]
            apply decide_eq_false
            rintro (h1 | h1 | h1)
            · exact hK (Or.inl h1)
            · exact hK (Or.inr h1)
            · exact hE h1
          have e2 : pyIn r.resletter "DE" = false := by
            rw [hDE]
            apply decide_eq_false
            rintro (h1 | h1 | h1)
            · exact hD (Or.inl h1)
            · exact hD (Or.inr h1)
            · exact hE h1
          have e3 : decide (r.resletter = "K" ∨ r.resletter = "R") = false :=
            decide_eq_false hK
          have e4 : decide (r.resletter = "D" ∨ r.resletter = "E") = false :=
            decide_eq_false hD
          simp only [List.filter_cons, e1, e2, e3, e4, Bool.false_eq_true, if_false]
          exact ih hrest

/-- C3: dipolevector is the sum of center of mass over residues lettered
K or R minus the sum over residues lettered D or E; dipolemoment is
exactly 4.803 times the Euclidean norm of that vector; with no charged
residue the vector is zero and the moment is zero, with no error. -/
theorem C3_dipole_vector_moment (s : ModStructure)
    (h : ∀ r ∈ s.get_residues, r.resletter ∈ STDLETTERS ∨ r.resletter = "") :
    (dipolevector s
      = ((s.get_residues.filter
            (fun r => decide (r.resletter = "K" ∨ r.resletter = "R"))).map ModRes.com).sum
        - ((s.get_residues.filter
            (fun r => decide (r.resletter = "D" ∨ r.resletter = "E"))).map ModRes.com).sum)
    ∧ dipolemoment s = (4.803 : ℝ) * norm3 (dipolevector s)
    ∧ ((∀ r ∈ s.get_residues, r.resletter ∉ (["K", "R", "D", "E"] : List String)) →
        dipolevector s = 0 ∧ dipolemoment s = 0) := by
  have h1 : dipolevector s
      = ((s.get_residues.filter
            (fun r => decide (r.resletter = "K" ∨ r.resletter = "R"))).map ModRes.com).sum
        - ((s.get_residues.filter
            (fun r => decide (r.resletter = "D" ∨ r.resletter = "E"))).map ModRes.com).sum := by
    rw [dipolevector]
    exact dipole_list s.get_residues h
  refine ⟨h1, rfl, ?_⟩
  intro hnone
  have hpos : s.get_residues.filter
      (fun r => decide (r.resletter = "K" ∨ r.resletter = "R")) = [] := by
    apply List.filter_eq_nil_iff.mpr
    intro x hx
    have := hnone x hx
    simp only [decide_eq_true_eq]
    rintro (h2 | h2) <;> rw [h2] at this <;> simp at this
  have hneg : s.get_residues.filter
      (fun r => decide (r.resletter = "D" ∨ r.resletter = "E")) = [] := by
    apply List.filter_eq_nil_iff.mpr
    intro x hx
    have := hnone x hx
    simp only [decide_eq_true_eq]
    rintro (h2 | h2) <;> rw [h2] at this <;> simp at this
  have hzero : dipolevector s = 0 := by
    rw [h1, hpos, hneg]
    simp
  refine ⟨hzero, ?_⟩
  rw [dipolemoment, hzero, norm3_zero, mul_zero]

/-- A glycine residue, uncharged, for the C3 witness. -/
def wRes3 : ModRes :=
  { rid := (" ", 2, " "), resname := "GLY", segid := " ", resletter := "G",
    com := (0, 3, 4), sasa := some 40, monosasa := none }

/-- One-chain structure with no charged residue (letters A and G). -/
def wS3 : ModStructure :=
  { sid := "w3", chains := [{ residues := [wRes2, wRes3] }], com := (0, 0, 0) }

/-- Witness for C3 at a concrete structure with no charged residues. -/
theorem C3_dipole_vector_moment_witness :
    ((∀ r ∈ wS3.get_residues, r.resletter ∈ STDLETTERS ∨ r.resletter = "")
     ∧ (∀ r ∈ wS3.get_residues, r.resletter ∉ (["K", "R", "D", "E"] : List String)))
    ∧ ((dipolevector wS3
        = ((wS3.get_residues.filter
              (fun r => decide (r.resletter = "K" ∨ r.resletter = "R"))).map ModRes.com).sum
          - ((wS3.get_residues.filter
              (fun r => decide (r.resletter = "D" ∨ r.resletter = "E"))).map ModRes.com).sum)
       ∧ dipolemoment wS3 = (4.803 : ℝ) * norm3 (dipolevector wS3)
       ∧ ((∀ r ∈ wS3.get_residues, r.resletter ∉ (["K", "R", "D", "E"] : List String)) →
           dipolevector wS3 = 0 ∧ dipolemoment wS3 = 0)) :=
  ⟨⟨by decide, by decide⟩, C3_dipole_vector_moment wS3 (by decide)⟩

/-- C6: for a residue with a standard letter, is_buried returns exactly
the comparison of assigned SASA over reference SASA against the
threshold (true iff the ratio is at most the threshold, with no
validation of the threshold value), and raises the precondition
AttributeError when monosasa has not been assigned. -/
theorem C6_is_buried (r : ModRes) (t m : ℚ)
    (h : r.resletter ∈ STDLETTERS) :
    (r.monosasa = some m →
       is_buried r t = .ok (decide (m / refOf r ≤ t))
       ∧ (is_buried r t = .ok true ↔ m / refOf r ≤ t))
    ∧ (r.monosasa = none →
       is_buried r t
         = .error "Attrib. monosasa not set: call structure.calculate_sasa first") := by
  obtain ⟨href, -⟩ := std_lookup r.resletter h
  obtain ⟨ref, hre⟩ := Option.isSome_iff_exists.mp href
  have hrefOf : refOf r = ref := by simp [refOf, hre]
  constructor
  · intro hm
    constructor
    · simp [is_buried, hm, hre, hrefOf]
    · rw [is_buried, hm, hre, hrefOf]
      simp
  · intro hm
    simp [is_buried, hm]

/-- An alanine residue with monosasa assigned, for the C6 witness; the
threshold 3 is outside the unit interval and still yields a defined
boolean. -/
def wRes6 : ModRes :=
  { rid := (" ", 1, " "), resname := "ALA", segid := " ", resletter := "A",
    com := (0, 0, 0), sasa := some 100, monosasa := some 100 }

/-- Witness for C6 at a concrete residue and an out-of-range threshold. -/
theorem C6_is_buried_witness :
    wRes6.resletter ∈ STDLETTERS
    ∧ ((wRes6.monosasa = some 100 →
         is_buried wRes6 3 = .ok (decide ((100 : ℚ) / refOf wRes6 ≤ 3))
         ∧ (is_buried wRes6 3 = .ok true ↔ (100 : ℚ) / refOf wRes6 ≤ 3))
       ∧ (wRes6.monosasa = none →
         is_buried wRes6 3
           = .error "Attrib. monosasa not set: call structure.calculate_sasa first")) :=
  ⟨by decide, C6_is_buried wRes6 3 100 (by decide)⟩

/-- The residue contributes to truehydrophobicity exactly when this
Boolean holds: is_buried at threshold 0.25 returned false. -/
def buriedFalseB (r : ModRes) : Bool :=
  match is_buried r 0.25 with
  | .ok b => !b
  | .error _ => false

/-- Pointwise agreement of the truehydrophobicity exposure test with the
complement of is_buried at 0.25, once the SASA pass has copied sasa into
monosasa. -/
theorem exposed_eq_buriedFalse (r : ModRes)
    (h1 : r.resletter ∈ STDLETTERS) (h2 : r.sasa.isSome)
    (h3 : r.monosasa = r.sasa) :
    exposedB r = buriedFalseB r := by
  obtain ⟨v, hv⟩ := Option.isSome_iff_exists.mp h2
  obtain ⟨href, -⟩ := std_lookup r.resletter h1
  obtain ⟨ref, hre⟩ := Option.isSome_iff_exists.mp href
  rw [hv] at h3
  have hsasaOf : sasaOf r = v := by simp [sasaOf, hv]
  have hrefOf : refOf r = ref := by simp [refOf, hre]
  have hbf : buriedFalseB r = !(decide (v / ref ≤ 0.25)) := by
    simp only [buriedFalseB, is_buried, h3, hre]
  rw [exposedB, hsasaOf, hrefOf, hbf]
  by_cases hc : v / ref ≤ 0.25
  · rw [decide_eq_true hc, decide_eq_false (not_lt.mpr hc)]
    rfl
  · rw [decide_eq_false hc, decide_eq_true (lt_of_not_le hc)]
    rfl

/-- C8: once the SASA pass has run, a residue contributes its scale
value to truehydrophobicity exactly when is_buried at the default 0.25
threshold returns false; the two tests compare the same ratio in
opposite directions, and the boundary ratio 0.25 counts as buried and is
excluded from the sum. -/
theorem C8_buried_complement (s : ModStructure)
    (h : ∀ r ∈ s.get_residues,
        r.resletter ∈ STDLETTERS ∧ r.sasa.isSome ∧ r.monosasa = r.sasa) :
    truehydrophobicity s
      = .ok (((s.get_residues.filter buriedFalseB).map scaleOf).sum)
    ∧ (∀ r ∈ s.get_residues,
        (is_buried r 0.25 = .ok false ↔ 0.25 < sasaOf r / refOf r))
    ∧ (∀ r ∈ s.get_residues,
        sasaOf r / refOf r = 0.25 →
          is_buried r 0.25 = .ok true ∧ exposedB r = false) := by
  have hgood : ∀ r ∈ s.get_residues, r.sasa.isSome ∧ r.resletter ∈ STDLETTERS :=
    fun r hr => ⟨(h r hr).2.1, (h r hr).1⟩
  have hmain := trueHydroGo_closed s.get_residues 0 hgood
  rw [zero_add] at hmain
  have hfc : s.get_residues.filter exposedB = s.get_residues.filter buriedFalseB :=
    List.filter_congr (fun r hr =>
      exposed_eq_buriedFalse r (h r hr).1 (h r hr).2.1 (h r hr).2.2)
  refine ⟨by rw [truehydrophobicity, hmain, hfc], ?_, ?_⟩
  · intro r hr
    obtain ⟨h1, h2, h3⟩ := h r hr
    obtain ⟨v, hv⟩ := Option.isSome_iff_exists.mp h2
    obtain ⟨href, -⟩ := std_lookup r.resletter h1
    obtain ⟨ref, hre⟩ := Option.isSome_iff_exists.mp href
    rw [hv] at h3
    have hsasaOf : sasaOf r = v := by simp [sasaOf, hv]
    have hrefOf : refOf r = ref := by simp [refOf, hre]
    rw [is_buried, h3, hre, hsasaOf, hrefOf]
    simp [not_le]
  · intro r hr hrat
    obtain ⟨h1, h2, h3⟩ := h r hr
    obtain ⟨v, hv⟩ := Option.isSome_iff_exists.mp h2
    obtain ⟨href, -⟩ := std_lookup r.resletter h1
    obtain ⟨ref, hre⟩ := Option.isSome_iff_exists.mp href
    rw [hv] at h3
    have hsasaOf : sasaOf r = v := by simp [sasaOf, hv]
    have hrefOf : refOf r = ref := by simp [refOf, hre]
    rw [hsasaOf, hrefOf] at hrat
    constructor
    · rw [is_buried, h3, hre]
      simp [hrat]
    · rw [exposedB, hsasaOf, hrefOf, hrat]
      simp

/-- A valine residue whose ratio to the reference SASA is exactly 0.25
(sasa 40 over reference 160), for the C8 witness boundary case. -/
def wRes8 : ModRes :=
  { rid := (" ", 1, " "), resname := "VAL", segid := " ", resletter := "V",
    com := (0, 0, 0), sasa := some 40, monosasa := some 40 }

/-- One-chain structure holding wRes6 and the boundary residue wRes8. -/
def wS8 : ModStructure :=
  { sid := "w8", chains := [{ residues := [wRes6, wRes8] }], com := (0, 0, 0) }

/-- Witness for C8 at a concrete structure containing a residue exactly
at the 0.25 boundary. -/
theorem C8_buried_complement_witness :
    (∀ r ∈ wS8.get_residues,
        r.resletter ∈ STDLETTERS ∧ r.sasa.isSome ∧ r.monosasa = r.sasa)
    ∧ (truehydrophobicity wS8
        = .ok (((wS8.get_residues.filter buriedFalseB).map scaleOf).sum)
       ∧ (∀ r ∈ wS8.get_residues,
           (is_buried r 0.25 = .ok false ↔ 0.25 < sasaOf r / refOf r))
       ∧ (∀ r ∈ wS8.get_residues,
           sasaOf r / refOf r = 0.25 →
             is_buried r 0.25 = .ok true ∧ exposedB r = false)) :=
  ⟨by decide, C8_buried_complement wS8 (by decide)⟩

/-- Unfolding the sequence fold one residue at a time. -/
theorem seqList_acc (rs : List ModRes) :
    ∀ acc : String, rs.foldl (fun a r => a ++ r.resletter) acc = acc ++ seqList rs := by
  induction rs with
  | nil => intro acc; simp [seqList]
  | cons r rs ih =>
    intro acc
    have h1 : seqList (r :: rs) = r.resletter ++ seqList rs := by
      rw [seqList, List.foldl_cons, ih ("" ++ r.resletter)]
      rfl
    rw [List.foldl_cons, ih (acc ++ r.resletter), h1, String.append_assoc]

/-- The sequence of a cons is the head's letter followed by the tail's
sequence. -/
theorem seqList_cons (r : ModRes) (rs : List ModRes) :
    seqList (r :: rs) = r.resletter ++ seqList rs := by
  rw [seqList, List.foldl_cons, seqList_acc rs ("" ++ r.resletter)]
  rfl

/-- The sequence fold is the join of the letters. -/
theorem seqList_join (rs : List ModRes) :
    seqList rs = String.join (rs.map ModRes.resletter) :=
  (List.foldl_map ModRes.resletter (fun a b => a ++ b) rs "").symm

/-- Residues with the empty-letter sentinel contribute no character:
dropping them leaves the sequence unchanged. -/
theorem seqList_drop_empty (rs : List ModRes) :
    seqList rs = seqList (rs.filter (fun r => decide (r.resletter ≠ ""))) := by
  induction rs with
  | nil => rfl
  | cons r rs ih =>
    by_cases hE : r.resletter = ""
    · have hf : (decide (r.resletter ≠ "")) = false := by
        rw [hE]; decide
      rw [seqList_cons, hE, List.filter_cons, hf]
      simp only [Bool.false_eq_true, if_false]
      rw [ih]
      rfl
    · have hf : (decide (r.resletter ≠ "")) = true := decide_eq_true hE
      rw [seqList_cons, List.filter_cons, hf]
      simp only [if_true]
      rw [seqList_cons, ih]

/-- Every character of a standard letter is a standard character. -/
theorem std_chars : ∀ l ∈ STDLETTERS, ∀ c ∈ l.data, c ∈ STDCHARS.data := by
  decide

/-- All characters of the sequence are standard one-letter codes, when
every residue letter is standard or empty. -/
theorem seqList_chars (rs : List ModRes)
    (h : ∀ r ∈ rs, r.resletter ∈ STDLETTERS ∨ r.resletter = "") :
    ∀ c ∈ (seqList rs).data, c ∈ STDCHARS.data := by
  induction rs with
  | nil =>
    intro c hc
    simp [seqList] at hc
  | cons r rs ih =>
    intro c hc
    rw [seqList_cons, String.data_append] at hc
    rcases List.mem_append.mp hc with hc | hc
    · rcases h r (List.mem_cons_self r rs) with h1 | h1
      · exact std_chars r.resletter h1 c hc
      · rw [h1] at hc
        simp at hc
    · exact ih (fun x hx => h x (List.mem_cons_of_mem r hx)) c hc

/-- C9: length is the character count of the sequence; the sequence is
the concatenation of every residue letter in traversal order; residues
with an empty letter contribute no character at all; and the sequence
holds only standard one-letter codes. -/
theorem C9_sequence_invariants (s : ModStructure)
    (h : ∀ r ∈ s.get_residues, r.resletter ∈ STDLETTERS ∨ r.resletter = "") :
    getlength (sequencer s) = (sequencer s).length
    ∧ sequencer s = String.join (s.get_residues.map ModRes.resletter)
    ∧ sequencer s = seqList (s.get_residues.filter (fun r => decide (r.resletter ≠ "")))
    ∧ ∀ c ∈ (sequencer s).data, c ∈ STDCHARS.data := by
  refine ⟨rfl, seqList_join s.get_residues, seqList_drop_empty s.get_residues, ?_⟩
  exact seqList_chars s.get_residues h

/-- A water heterorecord residue carrying the empty-letter sentinel, for
the C9 witness. -/
def wResE : ModRes :=
  { rid := ("W", 9, " "), resname := "HOH", segid := " ", resletter := "",
    com := (0, 0, 0), sasa := none, monosasa := none }

/-- Structure mixing standard-letter residues and an empty-letter one. -/
def wS9 : ModStructure :=
  { sid := "w9", chains := [{ residues := [wRes1, wResE] }, { residues := [wRes3] }],
    com := (0, 0, 0) }

/-- Witness for C9 at a concrete structure containing an empty-letter
residue. -/
theorem C9_sequence_invariants_witness :
    (∀ r ∈ wS9.get_residues, r.resletter ∈ STDLETTERS ∨ r.resletter = "")
    ∧ (getlength (sequencer wS9) = (sequencer wS9).length
       ∧ sequencer wS9 = String.join (wS9.get_residues.map ModRes.resletter)
       ∧ sequencer wS9
          = seqList (wS9.get_residues.filter (fun r => decide (r.resletter ≠ "")))
       ∧ ∀ c ∈ (sequencer wS9).data, c ∈ STDCHARS.data) :=
  ⟨by decide, C9_sequence_invariants wS9 (by decide)⟩

/-- A letter fit for the pipeline: standard, non-empty, and present in
both reference tables. -/
def GoodLetter (l : String) : Prop :=
  l ∈ STDLETTERS ∧ l ≠ ""
    ∧ (GLYXGLY_ASA l).isSome ∧ (hydrophobicityscale l).isSome

instance : DecidablePred GoodLetter := fun l => by
  unfold GoodLetter
  infer_instance

/-- Every standard three-letter name maps to a good letter. -/
theorem std_names_good :
    ∀ n ∈ standard_aa_names, GoodLetter ((three_to_one n).getD "") := by
  decide

/-- A residue appended by init_residue is either pre-existing or carries
a good letter. -/
theorem init_residue_cases (st : BuilderState) (e : ResEntry) :
    ∀ r ∈ (init_residue st e).chain, r ∈ st.chain ∨ GoodLetter r.resletter := by
  intro r hr
  by_cases hstd : is_aa_standard e.resname = true
  · rw [init_residue] at hr
    rw [if_neg (by simp [hstd])] at hr
    rcases List.mem_append.mp hr with hr | hr
    · exact Or.inl hr
    · right
      have hre : r = ModRes.init
          (if e.hfield ≠ " " then
            (if e.hfield = "H" then "H_" ++ e.resname else e.hfield)
           else e.hfield, e.resseq, e.icode) e.resname st.segid e.com := by
        simpa using hr
      have hmem : e.resname ∈ standard_aa_names :=
        List.mem_of_elem_eq_true hstd
      have hcontains : standard_aa_names.contains e.resname = true := hstd
      rw [hre]
      show GoodLetter (ModRes.init _ e.resname st.segid e.com).resletter
      rw [ModRes.init]
      simp only [hcontains, if_true]
      exact std_names_good e.resname hmem
  · rw [init_residue, if_pos (by simp [hstd])] at hr
    exact Or.inl hr

/-- Invariant of the builder fold: good letters are preserved and
created. -/
theorem foldl_init_good (entries : List ResEntry) :
    ∀ st : BuilderState, (∀ r ∈ st.chain, GoodLetter r.resletter) →
      ∀ r ∈ (entries.foldl init_residue st).chain, GoodLetter r.resletter := by
  induction entries with
  | nil => intro st h; exact h
  | cons e es ih =>
    intro st h
    apply ih
    intro r hr
    rcases init_residue_cases st e r hr with hr | hr
    · exact h r hr
    · exact hr

/-- C10: Builder.init_residue silently discards any residue whose name
is not one of the 20 standard amino acids, so every residue in a chain
the Builder constructs carries a non-empty standard one-letter code and
both reference-table lookups succeed on it. -/
theorem C10_builder_standard_filter (segid : String) (entries : List ResEntry)
    (st : BuilderState) (e : ResEntry) :
    (¬ is_aa_standard e.resname = true → init_residue st e = st)
    ∧ ∀ r ∈ (buildChain segid entries).chain,
        r.resletter ∈ STDLETTERS ∧ r.resletter ≠ ""
          ∧ (GLYXGLY_ASA r.resletter).isSome
          ∧ (hydrophobicityscale r.resletter).isSome := by
  constructor
  · intro hnot
    rw [init_residue, if_pos (by simp [hnot])]
  · intro r hr
    exact foldl_init_good entries { segid := segid, chain := [] }
      (by intro x hx; simp at hx) r hr

/-- Witness for C10: a standard lysine record is kept, a water record is
dropped. -/
theorem C10_builder_standard_filter_witness :
    (¬ is_aa_standard (ResEntry.mk "HOH" "W" 1 " " (0, 0, 0)).resname = true →
       init_residue { segid := " ", chain := [] }
           (ResEntry.mk "HOH" "W" 1 " " (0, 0, 0))
         = { segid := " ", chain := [] })
    ∧ ∀ r ∈ (buildChain " "
          [ResEntry.mk "LYS" " " 1 " " (1, 0, 0),
           ResEntry.mk "HOH" "W" 2 " " (0, 0, 0)]).chain,
        r.resletter ∈ STDLETTERS ∧ r.resletter ≠ ""
          ∧ (GLYXGLY_ASA r.resletter).isSome
          ∧ (hydrophobicityscale r.resletter).isSome :=
  C10_builder_standard_filter " "
    [ResEntry.mk "LYS" " " 1 " " (1, 0, 0), ResEntry.mk "HOH" "W" 2 " " (0, 0, 0)]
    { segid := " ", chain := [] } (ResEntry.mk "HOH" "W" 1 " " (0, 0, 0))

/-- Every descriptor attribute of the measured record is populated. -/
def AllMeasured (st : Measured) : Prop :=
  st.sequence.isSome ∧ st.length.isSome ∧ st.MWkDa.isSome ∧ st.fPos.isSome
    ∧ st.fNeg.isSome ∧ st.fFatty.isSome ∧ st.sasa.isSome ∧ st.nc.isSome
    ∧ st.ncd.isSome ∧ st.dpm.isSome ∧ st.guy.isSome ∧ st.hpm.isSome

/-- measure reports no error exactly when every descriptor attribute got
assigned; every error branch leaves at least the final attribute unset. -/
theorem measure_ok_iff (mw : String → ℚ) (s : ModStructure) :
    (s.measure mw).2 = none ↔ AllMeasured (s.measure mw).1 := by
  rw [ModStructure.measure]
  by_cases h0 : getlength (sequencer s) = 0
  · rw [if_pos h0]
    simp [AllMeasured]
  · rw [if_neg h0]
    cases hcs : calculate_sasa s with
    | error e => simp [AllMeasured]
    | ok p =>
      obtain ⟨s2, total⟩ := p
      dsimp only
      cases hn : netchargedensity (sequencer s) total with
      | error e => simp [AllMeasured]
      | ok d =>
        dsimp only
        cases hth : truehydrophobicity s2 with
        | error e => simp [AllMeasured]
        | ok g =>
          dsimp only
          cases hhm : hydrophobicmoment s2 with
          | error e => simp [AllMeasured]
          | ok hm => simp [AllMeasured]

/-- C4 (amended): measure assigns descriptor attributes in source order,
so an error leaves the attributes assigned before the failing derivation
in place; the run reports no error exactly when every descriptor
attribute has been populated. -/
theorem C4_measure_all_populated_iff_no_error (mw : String → ℚ) (s : ModStructure) :
    (s.measure mw).2 = none ↔ AllMeasured (s.measure mw).1 :=
  measure_ok_iff mw s

/-- The constant-zero stand-in for the external molecular-weight
utility. -/
def mwZero : String → ℚ := fun _ => 0

/-- A lysine residue whose externally assigned SASA is zero. -/
def resKzero : ModRes :=
  { rid := (" ", 1, " "), resname := "LYS", segid := " ", resletter := "K",
    com := (1, 0, 0), sasa := some 0, monosasa := none }

/-- A structure with total SASA zero: netchargedensity raises
mid-pipeline. -/
def sZero : ModStructure :=
  { sid := "z", chains := [{ residues := [resKzero] }], com := (0, 0, 0) }

/-- sZero after calculate_sasa has copied sasa into monosasa. -/
def sZeroMono : ModStructure :=
  { sid := "z", chains := [{ residues := [{ resKzero with monosasa := some 0 }] }],
    com := (0, 0, 0) }

/-- calculate_sasa on sZero succeeds with total zero. -/
theorem calculate_sasa_sZero : calculate_sasa sZero = .ok (sZeroMono, 0) := by
  simp [calculate_sasa, copyMonoChains, copyMonoList, sZero, sZeroMono,
    resKzero, ModStructure.get_residues]

/-- measure on sZero stops at netchargedensity with the attributes up to
nc assigned and ncd, dpm, guy, hpm unset. -/
theorem measure_sZero :
    sZero.measure mwZero
      = ({ sequence := some (sequencer sZero),
           length := some (getlength (sequencer sZero)),
           MWkDa := some (mwZero (sequencer sZero) / 1000),
           fPos := some (((aminocount (sequencer sZero)).1 : ℚ)
             / (getlength (sequencer sZero) : ℚ)),
           fNeg := some (((aminocount (sequencer sZero)).2.1 : ℚ)
             / (getlength (sequencer sZero) : ℚ)),
           fFatty := some (((aminocount (sequencer sZero)).2.2 : ℚ)
             / (getlength (sequencer sZero) : ℚ)),
           sasa := some 0, nc := some (netcharge (sequencer sZero)),
           ncd := none, dpm := none, guy := none, hpm := none },
         some "ZeroDivisionError") := by
  rw [ModStructure.measure, if_neg (by decide), calculate_sasa_sZero]
  dsimp only
  rw [show netchargedensity (sequencer sZero) 0 = Except.error "ZeroDivisionError"
    from by simp [netchargedensity]]

/-- C4 counterexample: on a structure whose total SASA is zero, measure
raises, yet the attributes assigned before the failure (length and net
charge among them) are observable as computed while truehydrophobicity
is not: the record is partially populated rather than all-or-nothing. -/
theorem C4_measure_not_atomic_counterexample :
    ((sZero.measure mwZero).2).isSome = true
    ∧ (sZero.measure mwZero).1.length = some 1
    ∧ (sZero.measure mwZero).1.nc = some 1
    ∧ (sZero.measure mwZero).1.guy = none := by
  rw [measure_sZero]
  exact ⟨rfl, rfl, rfl, rfl⟩

/-- serializer on a fully measured record: the flat record with the
fixed keys in insertion order, each bound to the stored attribute. -/
theorem serializer_record (sid : String) (st : Measured) (hall : AllMeasured st) :
    serializer sid st
      = .ok [("id", .str sid), ("length", .nat (st.length.getD 0)),
             ("mwkda", .rat (st.MWkDa.getD 0)), ("fPos", .rat (st.fPos.getD 0)),
             ("fNeg", .rat (st.fNeg.getD 0)), ("fFatty", .rat (st.fFatty.getD 0)),
             ("sasa", .rat (st.sasa.getD 0)), ("nc", .int (st.nc.getD 0)),
             ("ncd", .rat (st.ncd.getD 0)), ("dpm", .real (st.dpm.getD 0)),
             ("guy", .rat (st.guy.getD 0)), ("hpm", .real (st.hpm.getD 0))] := by
  obtain ⟨-, h2, h3, h4, h5, h6, h7, h8, h9, h10, h11, h12⟩ := hall
  obtain ⟨len, hlen⟩ := Option.isSome_iff_exists.mp h2
  obtain ⟨mwk, hmwk⟩ := Option.isSome_iff_exists.mp h3
  obtain ⟨fp, hfp⟩ := Option.isSome_iff_exists.mp h4
  obtain ⟨fn, hfn⟩ := Option.isSome_iff_exists.mp h5
  obtain ⟨ff, hff⟩ := Option.isSome_iff_exists.mp h6
  obtain ⟨sa, hsa⟩ := Option.isSome_iff_exists.mp h7
  obtain ⟨nc, hnc⟩ := Option.isSome_iff_exists.mp h8
  obtain ⟨ncd, hncd⟩ := Option.isSome_iff_exists.mp h9
  obtain ⟨dpm, hdpm⟩ := Option.isSome_iff_exists.mp h10
  obtain ⟨guy, hguy⟩ := Option.isSome_iff_exists.mp h11
  obtain ⟨hpm, hhpm⟩ := Option.isSome_iff_exists.mp h12
  simp [serializer, getAttr, hlen, hmwk, hfp, hfn, hff, hsa, hnc, hncd,
    hdpm, hguy, hhpm]

/-- C5 (amended): after a successful measure run, serializer returns
the flat record whose keys are exactly id, length, mwkda, fPos, fNeg,
fFatty, sasa, nc, ncd, dpm, guy and hpm, in insertion order, each bound
to the previously stored attribute value with no recomputation. -/
theorem C5_serializer_record_of_measure (sid : String) (mw : String → ℚ)
    (s : ModStructure) (h : (s.measure mw).2 = none) :
    serializer sid (s.measure mw).1
      = .ok [("id", .str sid), ("length", .nat ((s.measure mw).1.length.getD 0)),
             ("mwkda", .rat ((s.measure mw).1.MWkDa.getD 0)),
             ("fPos", .rat ((s.measure mw).1.fPos.getD 0)),
             ("fNeg", .rat ((s.measure mw).1.fNeg.getD 0)),
             ("fFatty", .rat ((s.measure mw).1.fFatty.getD 0)),
             ("sasa", .rat ((s.measure mw).1.sasa.getD 0)),
             ("nc", .int ((s.measure mw).1.nc.getD 0)),
             ("ncd", .rat ((s.measure mw).1.ncd.getD 0)),
             ("dpm", .real ((s.measure mw).1.dpm.getD 0)),
             ("guy", .rat ((s.measure mw).1.guy.getD 0)),
             ("hpm", .real ((s.measure mw).1.hpm.getD 0))] :=
  serializer_record sid (s.measure mw).1 ((measure_ok_iff mw s).mp h)

/-- The constant-one stand-in for the external molecular-weight
utility. -/
def mwOne : String → ℚ := fun _ => 1

/-- A well-exposed lysine residue away from the origin. -/
def resK250 : ModRes :=
  { rid := (" ", 1, " "), resname := "LYS", segid := " ", resletter := "K",
    com := (1, 2, 3), sasa := some 250, monosasa := none }

/-- A one-residue structure on which the whole pipeline succeeds. -/
def sK : ModStructure :=
  { sid := "k", chains := [{ residues := [resK250] }], com := (0, 0, 0) }

/-- sK after calculate_sasa has copied sasa into monosasa. -/
def sKmono : ModStructure :=
  { sid := "k", chains := [{ residues := [{ resK250 with monosasa := some 250 }] }],
    com := (0, 0, 0) }

/-- calculate_sasa on sK succeeds with total 250. -/
theorem calculate_sasa_sK : calculate_sasa sK = .ok (sKmono, 250) := by
  simp [calculate_sasa, copyMonoChains, copyMonoList, sK, sKmono,
    resK250, ModStructure.get_residues]

/-- The exposed lysine contributes its scale value. -/
theorem truehydro_sKmono : truehydrophobicity sKmono = .ok 1.400 := by
  norm_num [truehydrophobicity, ModStructure.get_residues, sKmono, resK250,
    trueHydroGo, trueHydroStep, GLYXGLY_ASA, hydrophobicityscale]

/-- The hydrophobic vector of sKmono, unevaluated. -/
theorem hydrovec_sKmono :
    hydrophobicvector sKmono
      = .ok (0 + ((1.400 : ℚ) * 250) • (((1, 2, 3) : Vec3) - (0, 0, 0))) := by
  simp only [hydrophobicvector, ModStructure.get_residues, sKmono, resK250]
  simp [hydroVecGo, hydroVecStep, hydrophobicityscale]

/-- The hydrophobic moment of sKmono, unevaluated. -/
theorem hydromoment_sKmono :
    hydrophobicmoment sKmono
      = .ok (norm3 (0 + ((1.400 : ℚ) * 250) • (((1, 2, 3) : Vec3) - (0, 0, 0)))) := by
  rw [hydrophobicmoment, hydrovec_sKmono]
  rfl

/-- measure succeeds on sK. -/
theorem measure_sK_ok : (sK.measure mwOne).2 = none := by
  rw [ModStructure.measure, if_neg (by decide), calculate_sasa_sK]
  dsimp only
  rw [show netchargedensity (sequencer sK) 250
      = Except.ok ((netcharge (sequencer sK) : ℚ) / 250)
    from by rw [netchargedensity, if_neg (by norm_num)]]
  dsimp only
  rw [truehydro_sKmono]
  dsimp only
  rw [hydromoment_sKmono]

/-- C5 counterexample: on a measured structure the serializer's key list
is id, length, mwkda, fPos, fNeg, fFatty, sasa, nc, ncd, dpm, guy, hpm,
and the key molecular_weight_kDa claimed by the specification does not
occur in it, so the claimed key set differs from the produced one. -/
theorem C5_serializer_keys_counterexample :
    (serializer "k" (sK.measure mwOne).1).map (fun rec => rec.map Prod.fst)
      = .ok ["id", "length", "mwkda", "fPos", "fNeg", "fFatty", "sasa", "nc",
             "ncd", "dpm", "guy", "hpm"]
    ∧ "molecular_weight_kDa"
        ∉ ["id", "length", "mwkda", "fPos", "fNeg", "fFatty", "sasa", "nc",
           "ncd", "dpm", "guy", "hpm"] := by
  constructor
  · rw [serializer_record "k" (sK.measure mwOne).1
      ((measure_ok_iff mwOne sK).mp measure_sK_ok)]
    rfl
  · decide

/-- Witness for the amended C5 at the concrete measured structure sK. -/
theorem C5_serializer_record_witness :
    (sK.measure mwOne).2 = none
    ∧ serializer "k" (sK.measure mwOne).1
      = .ok [("id", .str "k"), ("length", .nat ((sK.measure mwOne).1.length.getD 0)),
             ("mwkda", .rat ((sK.measure mwOne).1.MWkDa.getD 0)),
             ("fPos", .rat ((sK.measure mwOne).1.fPos.getD 0)),
             ("fNeg", .rat ((sK.measure mwOne).1.fNeg.getD 0)),
             ("fFatty", .rat ((sK.measure mwOne).1.fFatty.getD 0)),
             ("sasa", .rat ((sK.measure mwOne).1.sasa.getD 0)),
             ("nc", .int ((sK.measure mwOne).1.nc.getD 0)),
             ("ncd", .rat ((sK.measure mwOne).1.ncd.getD 0)),
             ("dpm", .real ((sK.measure mwOne).1.dpm.getD 0)),
             ("guy", .rat ((sK.measure mwOne).1.guy.getD 0)),
             ("hpm", .real ((sK.measure mwOne).1.hpm.getD 0))] :=
  ⟨measure_sK_ok, C5_serializer_record_of_measure "k" mwOne sK measure_sK_ok⟩

/-- C7: once the SASA pass has produced the total, netchargedensity is
exactly netcharge divided by the total, and a zero total surfaces as the
explicit ZeroDivisionError rather than a silent value. -/
theorem C7_netchargedensity (s s' : ModStructure) (total : ℚ)
    (h : calculate_sasa s = .ok (s', total)) :
    (total ≠ 0 →
       netchargedensity (sequencer s) total
         = .ok ((netcharge (sequencer s) : ℚ) / total))
    ∧ (total = 0 →
       netchargedensity (sequencer s) total = .error "ZeroDivisionError") := by
  constructor
  · intro ht
    rw [netchargedensity, if_neg ht]
  · intro ht
    rw [netchargedensity, if_pos ht]

/-- Witness for C7 at the concrete structure sK with total SASA 250. -/
theorem C7_netchargedensity_witness :
    calculate_sasa sK = .ok (sKmono, 250)
    ∧ (((250 : ℚ) ≠ 0 →
         netchargedensity (sequencer sK) 250
           = .ok ((netcharge (sequencer sK) : ℚ) / 250))
       ∧ ((250 : ℚ) = 0 →
         netchargedensity (sequencer sK) 250 = .error "ZeroDivisionError")) :=
  ⟨calculate_sasa_sK, C7_netchargedensity sK sKmono 250 calculate_sasa_sK⟩
